import Mathlib

/-!
Verification of the zustand counter store in `src/src/stores/count.store.ts`.

The store state (TypeScript interface `CountStore`) holds an integer `count`,
a derived-query closure `isEven`, and an `actions` object with `increment` and
`decrement`.  The closures read the live state through zustand's `get` and
update it through `set`, which shallow-merges the returned partial object into
the current state; we model the behaviour of each closure as a Lean function
on the state, and the reference identity of the `isEven` closure and of the
`actions` object as opaque numeric tags carried in the state, which a shallow
merge of `{ count: ... }` leaves untouched.

The `persist` middleware (options `name: 'countStore'`,
`partialize: (state) => ({ count: state.count })`) is zustand library code and
not part of this repository; its read/write protocol is modelled from the
specification where noted.
-/

/-- Identity tag standing for the reference identity of a closure or object. -/
abbrev Ref := Nat

/-- The store state from `interface CountStore`: the integer `count`, plus the
reference identities of the `isEven` closure and the `actions` object.  The
behaviour of those closures is given by the functions `isEven`, `increment`
and `decrement` below. -/
structure CountStore where
  count : Int
  isEvenRef : Ref
  actionsRef : Ref
deriving DecidableEq, Repr

/-- Behaviour of `isEven: () => get().count % 2 === 0`.  JavaScript `%` is the
truncating remainder (sign of the dividend), i.e. `Int.tmod`; `-0 === 0` holds
in JavaScript, and `Int` has no negative zero, so `== 0` is faithful. -/
def isEven (s : CountStore) : Bool := s.count.tmod 2 == 0

/-- Calling the `isEven` closure as an operation on the store: its body
`get().count % 2 === 0` only invokes `get`, never `set`, so the call returns
the boolean together with the unchanged state. -/
def isEvenCall (s : CountStore) : Bool × CountStore := (isEven s, s)

/-- Behaviour of `increment: () => set((state) => ({ count: state.count + 1 }))`:
`set` shallow-merges the partial `{ count }` into the state, so only the
`count` field is replaced. -/
def increment (s : CountStore) : CountStore := { s with count := s.count + 1 }

/-- Behaviour of `decrement: () => set((state) => ({ count: state.count - 1 }))`. -/
def decrement (s : CountStore) : CountStore := { s with count := s.count - 1 }

/-- The state built by the store creator `(set, get) => ({ count: 0, ... })`:
`count` starts at `0`, and the creator allocates the `isEven` closure and the
`actions` object once (two distinct fresh references). -/
def creatorState : CountStore := { count := 0, isEvenRef := 0, actionsRef := 1 }

/-- A call to one of the two actions of the `actions` object. -/
inductive Mutation where
  | inc
  | dec
deriving DecidableEq, Repr

/-- Dispatch a `Mutation` to the corresponding action behaviour. -/
def applyMutation : Mutation → CountStore → CountStore
  | .inc => increment
  | .dec => decrement

/-- Run a finite sequence of action calls against a store state. -/
def runSteps (steps : List Mutation) (s : CountStore) : CountStore :=
  steps.foldl (fun t m => applyMutation m t) s

/-- The net sum of the `+1` / `-1` steps of a sequence of action calls. -/
def netSum : List Mutation → Int
  | [] => 0
  | .inc :: t => 1 + netSum t
  | .dec :: t => -1 + netSum t

/-- The persist option `name: 'countStore'`: the fixed key of the record in
the durable key-value medium. -/
def storeName : String := "countStore"

/-- Modelled from the spec: the record found under a key of the durable
key-value medium is missing, malformed (unparsable), or a well-formed
serialized `{ count }` snapshot.  The medium itself (e.g. local storage) is
host-environment code, not part of this repository. -/
inductive StorageRecord where
  | missing
  | malformed
  | wellFormed (count : Int)
deriving DecidableEq, Repr

/-- Modelled from the spec: the durable key-value medium, one record per key. -/
abbrev Storage := String → StorageRecord

/-- The persisted snapshot produced by `partialize`: a structurally-typed
object whose only field is `count`. -/
structure PersistedSnapshot where
  count : Int
deriving DecidableEq, Repr

/-- The option `partialize: (state) => ({ count: state.count })` from the
source: the projection of the state that gets persisted. -/
def partialize (s : CountStore) : PersistedSnapshot := { count := s.count }

/-- Modelled from the spec: serialization of the snapshot as a list of named
fields (the JSON encoding performed by the persist middleware). -/
def serializeSnapshot (p : PersistedSnapshot) : List (String × Int) :=
  [("count", p.count)]

/-- Modelled from the spec: after a successful mutation the persist middleware
serializes `partialize state` and writes it under `storeName`, overwriting the
previous record; all other keys of the medium are untouched. -/
def persistWrite (st : Storage) (s : CountStore) : Storage :=
  fun k => if k = storeName then .wellFormed (partialize s).count else st k

/-- Modelled from the spec: on store construction the persist middleware reads
the record under `storeName`; a well-formed snapshot is merged over the
creator state (seeding `count`), while a missing or malformed record falls
back to the creator default, never an error. -/
def rehydrate (st : Storage) : CountStore :=
  match st storeName with
  | .wellFormed n => { creatorState with count := n }
  | _ => creatorState

/-- A store together with its durable medium and the log of writes performed
so far (most recent first); used to state the one-write-per-mutation
property. -/
structure PersistedStore where
  state : CountStore
  storage : Storage
  writeLog : List (String × PersistedSnapshot)

/-- Modelled from the spec: a mutation applies the action to the in-memory
state and then performs exactly one persistence write of the partialized new
state under `storeName`. -/
def mutate (m : Mutation) (ps : PersistedStore) : PersistedStore :=
  let s := applyMutation m ps.state
  { state := s
    storage := persistWrite ps.storage s
    writeLog := (storeName, partialize s) :: ps.writeLog }

/-- Helper: running a sequence of actions adds its net sum to the counter. -/
theorem runSteps_count (steps : List Mutation) :
    ∀ s : CountStore, (runSteps steps s).count = s.count + netSum steps := by
  induction steps with
  | nil => intro s; simp [runSteps, netSum]
  | cons m t ih =>
    intro s
    cases m with
    | inc =>
      have h := ih (increment s)
      simp only [runSteps, List.foldl_cons, applyMutation] at h ⊢
      rw [h]
      simp [increment, netSum]
      ring
    | dec =>
      have h := ih (decrement s)
      simp only [runSteps, List.foldl_cons, applyMutation] at h ⊢
      rw [h]
      simp [decrement, netSum]
      ring

/-- Helper: the truncating remainder test of the source agrees with the
mathematical parity of the counter. -/
theorem tmod_two_eq_zero_iff (n : Int) : (n.tmod 2 == 0) = decide (n % 2 = 0) := by
  rcases Int.even_or_odd n with ⟨k, hk⟩ | ⟨k, hk⟩
  · subst hk
    have h1 : (k + k).tmod 2 = 0 := by
      have : (2 : Int) ∣ (k + k) := ⟨k, by ring⟩
      simpa [Int.tmod_eq_zero_of_dvd] using Int.tmod_eq_zero_of_dvd this
    have h2 : (k + k) % 2 = 0 := by omega
    simp [h1, h2]
  · subst hk
    have h1 : (2 * k + 1).tmod 2 ≠ 0 := by
      intro h
      have : (2 : Int) ∣ (2 * k + 1) := Int.dvd_of_tmod_eq_zero h
      omega
    have h2 : (2 * k + 1) % 2 ≠ 0 := by omega
    simp [h1, h2]

/-- C1: starting from a store whose count is 0, any finite sequence of
increment/decrement calls leaves `count` equal to the net sum of the `+1`/`-1`
steps applied, and `isEven()` then returns true exactly when that count is
even. -/
theorem counter_trace_net_sum (steps : List Mutation) (s : CountStore)
    (h : s.count = 0) :
    (runSteps steps s).count = netSum steps ∧
      isEven (runSteps steps s) = decide ((runSteps steps s).count % 2 = 0) := by
  constructor
  · rw [runSteps_count, h, zero_add]
  · rw [isEven, tmod_two_eq_zero_iff]

/-- Witness for C1: the concrete sequence inc, inc, dec from the creator state
reaches count 1, which is odd. -/
theorem counter_trace_net_sum_witness :
    creatorState.count = 0 ∧
      ((runSteps [.inc, .inc, .dec] creatorState).count =
          netSum [.inc, .inc, .dec] ∧
        isEven (runSteps [.inc, .inc, .dec] creatorState) =
          decide ((runSteps [.inc, .inc, .dec] creatorState).count % 2 = 0)) :=
  ⟨rfl, counter_trace_net_sum [.inc, .inc, .dec] creatorState rfl⟩

/-- C2: `isEven()` is a pure query: it returns true iff `count % 2 == 0`, it
leaves the state (count and every other field) unchanged, and it always
succeeds (it is a total function). -/
theorem isEven_pure_query (s : CountStore) :
    ((isEvenCall s).1 = true ↔ s.count % 2 = 0) ∧ (isEvenCall s).2 = s := by
  constructor
  · show (isEven s = true ↔ _)
    rw [isEven, tmod_two_eq_zero_iff]
    simp
  · rfl

/-- C3: for every store state with count `n`, `increment()` yields a state
with count `n + 1`; it takes no inputs and cannot fail (a total function on
all states). -/
theorem increment_adds_one (s : CountStore) :
    (increment s).count = s.count + 1 :=
  rfl

/-- C4: from count 0, two `decrement()` calls reach count `-2`, on which
`isEven()` returns true: no lower bound is enforced and parity is computed
correctly on negative counts. -/
theorem double_decrement_negative :
    (decrement (decrement creatorState)).count = -2 ∧
      isEven (decrement (decrement creatorState)) = true := by
  decide

/-- C5: persistence round-trip: writing any store state to any durable medium
and constructing a fresh instance from that medium restores the same count (in
particular count 5 restores to 5). -/
theorem persist_round_trip (st : Storage) (s : CountStore) :
    (rehydrate (persistWrite st s)).count = s.count := by
  simp [rehydrate, persistWrite, partialize]

/-- C6: default fallback: when the record under the store key is missing or
malformed, a fresh store instance starts with count 0; the malformed case is
handled exactly like the absent one and `rehydrate` is total, so no fatal
error can arise. -/
theorem rehydrate_default_fallback (st : Storage)
    (h : st storeName = .missing ∨ st storeName = .malformed) :
    (rehydrate st).count = 0 := by
  rcases h with h | h <;> simp [rehydrate, h, creatorState]

/-- Witness for C6: the everywhere-missing medium satisfies the hypothesis and
rehydrates to count 0. -/
theorem rehydrate_default_fallback_witness :
    ((fun _ => StorageRecord.missing : Storage) storeName = .missing ∨
        (fun _ => StorageRecord.missing : Storage) storeName = .malformed) ∧
      (rehydrate (fun _ => StorageRecord.missing)).count = 0 :=
  ⟨Or.inl rfl,
    rehydrate_default_fallback (fun _ => StorageRecord.missing) (Or.inl rfl)⟩

/-- C7: persisted field exclusivity: for every state the serialized snapshot
is exactly the single field `count` with the state's count, and in particular
its field names never include `isEven` or `actions`. -/
theorem persisted_snapshot_only_count (s : CountStore) :
    serializeSnapshot (partialize s) = [("count", s.count)] ∧
      "isEven" ∉ (serializeSnapshot (partialize s)).map Prod.fst ∧
      "actions" ∉ (serializeSnapshot (partialize s)).map Prod.fst := by
  refine ⟨rfl, ?_, ?_⟩ <;> simp [serializeSnapshot, partialize]

/-- C8: after every increment or decrement, exactly one persistence write
occurs: the write log grows by precisely the entry keyed `"countStore"`
carrying the new partialized snapshot, and the medium's record under that key
is overwritten with the new count. -/
theorem one_write_per_mutation (m : Mutation) (ps : PersistedStore) :
    (mutate m ps).writeLog =
        (storeName, partialize (mutate m ps).state) :: ps.writeLog ∧
      (mutate m ps).writeLog.length = ps.writeLog.length + 1 ∧
      (mutate m ps).storage storeName =
        .wellFormed (mutate m ps).state.count := by
  refine ⟨rfl, rfl, ?_⟩
  simp [mutate, persistWrite, partialize]

/-- C9: idempotence of read: two consecutive `isEven()` calls with no
intervening mutation (the second call runs on the state left by the first)
return the same boolean. -/
theorem isEven_read_idempotent (s : CountStore) :
    (isEvenCall (isEvenCall s).2).1 = (isEvenCall s).1 :=
  rfl

/-- C10: frame property: increment and decrement replace only the `count`
field; the reference identities of the `actions` object and the `isEven`
closure are unchanged by either mutation. -/
theorem mutations_preserve_refs (s : CountStore) :
    (increment s).isEvenRef = s.isEvenRef ∧
      (increment s).actionsRef = s.actionsRef ∧
      (decrement s).isEvenRef = s.isEvenRef ∧
      (decrement s).actionsRef = s.actionsRef :=
  ⟨rfl, rfl, rfl, rfl⟩
